import Mathlib

/-!
# The relay of `server.js`

A shallow embedding of the four proxy routes of `src/server.js`
(`POST /api/download`, `GET /api/video-download`, `POST /api/vocal-remover`,
`POST /api/transcribe`) and the properties of their request/response mapping.

Modelling conventions.

* A well-formed JavaScript string is a Lean `String` (its Unicode characters);
  equality, concatenation and `includes` agree on characters and on UTF-16
  code units. What counts code units (`substring`) or may leave a lone
  surrogate works on `JSString`, the list of UTF-16 code units; `utf16` gives
  the code units of a `String`. The strings inside JSON values are `JSString`s.
* A request field (`req.body.url`, `req.query.language`, `req.headers.range`, ...)
  is `Option String`: `none` is `undefined`, `some s` is the string `s`.
  `truthy` is JavaScript truthiness on those values and `jsOr` is `||`.
* `req.body` is the object the body parsers leave on the request (the empty
  object when nothing was parsed), so it is a list of fields. `req.files` is
  `none` when multer found no multipart body.
* A handler is a function of the configuration, of the upstream (`Fetch`: what
  `fetch` does with an outbound request) and of the inbound request. It returns
  the outbound requests it issued together with the response it sent.
* An upstream response is complete: its status, its headers (lower-cased
  names, as `Headers.get` compares them) and the three views of its body the
  handlers read: `text()`, `json()` and `arrayBuffer()`. `json` is what
  `JSON.parse` yields on the body, or the message of the exception it throws.
  The text is decoded UTF-8, hence a well-formed string.
* `res.json(value)` sends `JSON.stringify(value)`; `stringify` is that text and
  `sentText` the text of a response. A response with status 204 or 304 is sent
  without a body. Conditional request headers (`If-None-Match`, ...) are not
  part of a request here.
* `console.log` and `console.error` lines have no part in the mapping and are
  left out.
-/

namespace Relay

/-! ## JavaScript values and strings -/

/-- Truthiness of a value that is `undefined` or a string: `!v` is `!truthy v`. -/
def truthy : Option String → Bool
  | none => false
  | some s => s != ""

/-- The operator `a || b`. -/
def jsOr (a b : Option String) : Option String :=
  if truthy a then a else b

/-- The expression `s || d` for a string `s` and a default literal `d`. -/
def orDefault (s d : String) : String :=
  if s = "" then d else s

/-- Whether the character list starts with the given characters. -/
def startsWithChars : List Char → List Char → Bool
  | _, [] => true
  | [], _ :: _ => false
  | c :: cs, p :: ps => c == p && startsWithChars cs ps

/-- Whether the needle occurs somewhere in the character list. -/
def includesChars : List Char → List Char → Bool
  | [], needle => needle.isEmpty
  | c :: cs, needle => startsWithChars (c :: cs) needle || includesChars cs needle

/-- The method `String.prototype.includes`: case-sensitive substring search. -/
def includes (s needle : String) : Bool :=
  includesChars s.data needle.data

/-- A JavaScript string as the list of its UTF-16 code units. -/
abbrev JSString := List Nat

/-- The UTF-16 code units of a character: one unit in the basic plane, a
surrogate pair above it. -/
def codeUnits (c : Char) : List Nat :=
  if c.toNat < 0x10000 then [c.toNat]
  else [0xD800 + (c.toNat - 0x10000) / 0x400, 0xDC00 + (c.toNat - 0x10000) % 0x400]

/-- The UTF-16 code units of a list of characters. -/
def utf16Chars : List Char → JSString
  | [] => []
  | c :: cs => codeUnits c ++ utf16Chars cs

/-- The UTF-16 code units of a string: the JavaScript string it is. -/
def utf16 (s : String) : JSString :=
  utf16Chars s.data

/-- The call `s.substring(0, n)`: the first `n` UTF-16 code units of `s` (all
of `s` when it is shorter). -/
def substring0 (s : JSString) (n : Nat) : JSString :=
  s.take n

/-- A byte. -/
abbrev Byte := Fin 256

/-- A Node `Buffer`. -/
abbrev Buffer := List Byte

/-- The base64 alphabet of RFC 4648. -/
def base64Alphabet : List Char :=
  "ABCDEFGHIJKLMNOPQRSTUVWXYZabcdefghijklmnopqrstuvwxyz0123456789+/".data

/-- The base64 digit of a six-bit value. -/
def base64Digit (n : Nat) : Char :=
  base64Alphabet.getD n '='

/-- The base64 characters of a byte list, three bytes to four digits, padded
with `=`. -/
def base64Chars : List Byte → List Char
  | [] => []
  | [a] => [base64Digit (a.val / 4), base64Digit (a.val % 4 * 16), '=', '=']
  | [a, b] =>
    [base64Digit (a.val / 4), base64Digit (a.val % 4 * 16 + b.val / 16),
     base64Digit (b.val % 16 * 4), '=']
  | a :: b :: c :: rest =>
    base64Digit (a.val / 4) :: base64Digit (a.val % 4 * 16 + b.val / 16) ::
    base64Digit (b.val % 16 * 4 + c.val / 64) :: base64Digit (c.val % 64) ::
    base64Chars rest

/-- The call `buffer.toString('base64')`. -/
def toBase64 (buffer : Buffer) : String :=
  ⟨base64Chars buffer⟩

/-- A JavaScript value of the kind `JSON.parse` yields and `res.json` takes.
A number is carried as the text `String(n)` gives for it; an object is the list
of its own properties in enumeration order. -/
inductive Json where
  | null
  | bool (b : Bool)
  | num (repr : String)
  | str (s : JSString)
  | arr (items : List Json)
  | obj (fields : List (JSString × Json))

/-- The string value of a string literal or template literal. -/
def Json.string (s : String) : Json :=
  .str (utf16 s)

/-- One property `name: value` of an object literal. -/
def field (name : String) (value : Json) : JSString × Json :=
  (utf16 name, value)

/-- The lower-case hexadecimal digit of a value below 16, as a code unit. -/
def hexDigit (n : Nat) : Nat :=
  if n < 10 then 48 + n else 87 + n

/-- The escape `\uXXXX` of a code unit. -/
def unicodeEscape (u : Nat) : JSString :=
  [92, 117, hexDigit (u / 4096 % 16), hexDigit (u / 256 % 16), hexDigit (u / 16 % 16),
   hexDigit (u % 16)]

/-- Whether a code unit is a leading (high) surrogate. -/
def isHighSurrogate (u : Nat) : Bool :=
  decide (0xD800 ≤ u) && decide (u ≤ 0xDBFF)

/-- Whether a code unit is a trailing (low) surrogate. -/
def isLowSurrogate (u : Nat) : Bool :=
  decide (0xDC00 ≤ u) && decide (u ≤ 0xDFFF)

/-- The text `JSON.stringify` writes for one code unit that is no part of a
surrogate pair: the two-character escapes, `\u00xx` for the other control
characters, `\udxxx` for a lone surrogate, the unit itself otherwise. -/
def escapeUnit (u : Nat) : JSString :=
  if u = 34 then [92, 34]
  else if u = 92 then [92, 92]
  else if u = 8 then [92, 98]
  else if u = 12 then [92, 102]
  else if u = 10 then [92, 110]
  else if u = 13 then [92, 114]
  else if u = 9 then [92, 116]
  else if u < 32 then unicodeEscape u
  else if isHighSurrogate u || isLowSurrogate u then unicodeEscape u
  else [u]

/-- The escaped content `JSON.stringify` writes between the quotes of a
string; a surrogate pair is written as it is. -/
def escapeUnits : JSString → JSString
  | [] => []
  | [u] => escapeUnit u
  | u :: v :: rest =>
    if isHighSurrogate u && isLowSurrogate v then u :: v :: escapeUnits rest
    else escapeUnit u ++ escapeUnits (v :: rest)

/-- The text `JSON.stringify` writes for a string: quoted and escaped. -/
def quote (s : JSString) : JSString :=
  34 :: escapeUnits s ++ [34]

/-- The text `JSON.stringify` writes for a number: its `String(n)`, and `null`
for the numbers that are not finite. -/
def numberText (repr : String) : JSString :=
  if repr = "NaN" ∨ repr = "Infinity" ∨ repr = "-Infinity" then utf16 "null" else utf16 repr

mutual
/-- The text `JSON.stringify(value)`. -/
def stringify : Json → JSString
  | .null => utf16 "null"
  | .bool b => if b then utf16 "true" else utf16 "false"
  | .num repr => numberText repr
  | .str s => quote s
  | .arr items => 91 :: stringifyItems items ++ [93]
  | .obj fields => 123 :: stringifyFields fields ++ [125]
/-- The elements of an array, separated by commas. -/
def stringifyItems : List Json → JSString
  | [] => []
  | [value] => stringify value
  | value :: next :: rest => stringify value ++ 44 :: stringifyItems (next :: rest)
/-- The properties of an object, `"name":value` separated by commas. -/
def stringifyFields : List (JSString × Json) → JSString
  | [] => []
  | [(name, value)] => quote name ++ 58 :: stringify value
  | (name, value) :: next :: rest =>
    quote name ++ 58 :: stringify value ++ 44 :: stringifyFields (next :: rest)
end

/-! ## Requests and responses -/

/-- A file as multer's memory storage hands it over in `req.files`. -/
structure UploadedFile where
  fieldname : String
  originalname : String
  mimetype : String
  buffer : Buffer

/-- The inbound request, as Express and multer present it to a handler. -/
structure Request where
  query : List (String × String) := []
  headers : List (String × String) := []
  body : List (String × String) := []
  files : Option (List UploadedFile) := none

/-- One part appended to an outbound `FormData`. -/
structure FormPart where
  name : String
  data : Buffer
  filename : String
  contentType : String

/-- The body handed to `fetch`. -/
inductive OutBody where
  | empty
  | json (value : Json)
  | form (parts : List FormPart)
  | urlencoded (pairs : List (String × String))

/-- An outbound request: the arguments of one `fetch` call. -/
structure OutRequest where
  url : String
  method : String
  headers : List (String × String)
  body : OutBody

/-- A complete upstream response: the final status the HTTP client reports,
the headers and the views of the body. -/
structure FetchResponse where
  status : Nat
  headers : List (String × String) := []
  text : String := ""
  json : Except String Json := .error "Unexpected end of JSON input"
  buffer : Buffer := []

/-- The property `response.ok` of node-fetch: a status in the range 200-299. -/
def FetchResponse.ok (r : FetchResponse) : Bool :=
  decide (200 ≤ r.status) && decide (r.status < 300)

/-- The call `response.headers.get(name)`, `none` standing for `null`. -/
def FetchResponse.header (r : FetchResponse) (name : String) : Option String :=
  r.headers.lookup name

/-- What awaiting `fetch` gives: a rejection with the error's message, or a
response. -/
inductive FetchResult where
  | failure (message : String)
  | response (r : FetchResponse)

/-- The upstream: what `fetch` does with each outbound request. -/
abbrev Fetch := OutRequest → FetchResult

/-- The body a handler sends: `res.json(value)`, `res.send(text)`,
`res.send(buffer)`, or no body at all. -/
inductive ResBody where
  | json (value : Json)
  | text (s : String)
  | binary (data : Buffer)
  | empty

/-- The response a handler sends: status, the headers the handler set with
`res.setHeader` (in that order) and the body. -/
structure Response where
  status : Nat
  headers : List (String × String)
  body : ResBody

/-- What a handler did: the outbound requests it issued and its response. -/
structure Outcome where
  calls : List OutRequest
  response : Response

/-- The keys read from the process environment at start-up. -/
structure Config where
  rapidApiKey : String
  vocalRemoverApiKey : String
  speechRecognitionApiKey : String

def RAPID_API_HOST : String := "social-download-all-in-one.p.rapidapi.com"
def RAPID_API_URL : String :=
  "https://social-download-all-in-one.p.rapidapi.com/v1/social/autolink"
def VOCAL_REMOVER_API_HOST : String :=
  "splitbeat-vocal-remover-music-splitter.p.rapidapi.com"
def VOCAL_REMOVER_API_URL : String :=
  "https://splitbeat-vocal-remover-music-splitter.p.rapidapi.com/Upload_audio"
def SPEECH_RECOGNITION_API_HOST : String :=
  "api-real-time-speech-processing.p.rapidapi.com"
def SPEECH_RECOGNITION_API_URL : String :=
  "https://api-real-time-speech-processing.p.rapidapi.com/asr"

/-- The chain `res.status(status).json(value)`. Express sends a response whose
status is 204 or 304 without a body. -/
def jsonResponse (status : Nat) (value : Json) : Response :=
  if status = 204 ∨ status = 304 then
    { status := status, headers := [], body := .empty }
  else
    { status := status, headers := [], body := .json value }

/-- The text a response carries in its body, as the client reads it. -/
def sentText (response : Response) : JSString :=
  match response.body with
  | .json value => stringify value
  | .text s => utf16 s
  | .binary _ => []
  | .empty => []

/-- The outer `catch` of a handler:
`res.status(500).json({ error: 'Internal server error', message })`. -/
def internalError (message : String) : Response :=
  jsonResponse 500
    (.obj [field "error" (.string "Internal server error"), field "message" (.string message)])

/-! ## POST /api/download -/

/-- The outbound request of `/api/download`. -/
def downloadRequest (cfg : Config) (url : String) : OutRequest :=
  { url := RAPID_API_URL
    method := "POST"
    headers := [("Content-Type", "application/json"),
                ("x-rapidapi-key", cfg.rapidApiKey),
                ("x-rapidapi-host", RAPID_API_HOST)]
    body := .json (.obj [field "url" (.string url)]) }

/-- The handler of `POST /api/download`. -/
def downloadHandler (cfg : Config) (fetch : Fetch) (req : Request) : Outcome :=
  let url := req.body.lookup "url"
  if !truthy url then
    { calls := []
      response := jsonResponse 400 (.obj [field "error" (.string "Missing required field: url")]) }
  else
    let out := downloadRequest cfg (url.getD "")
    match fetch out with
    | .failure message => { calls := [out], response := internalError message }
    | .response r =>
      if !r.ok then
        { calls := [out]
          response := jsonResponse r.status
            (.obj [field "error" (.string ("RapidAPI error: " ++ r.text))]) }
      else
        match r.json with
        | .error message => { calls := [out], response := internalError message }
        | .ok data => { calls := [out], response := jsonResponse 200 data }

/-! ## GET /api/video-download -/

/-- The referer chosen from the video URL (the `let referer` block). -/
def selectReferer (videoUrl : String) : String :=
  if includes videoUrl "tiktok" || includes videoUrl "musical.ly" then
    "https://www.tiktok.com/"
  else if includes videoUrl "instagram" then
    "https://www.instagram.com/"
  else if includes videoUrl "youtube" || includes videoUrl "googlevideo.com" then
    "https://www.youtube.com/"
  else
    "https://www.youtube.com/"

/-- The headers of the outbound video request: the fixed object literal, then
`Range` for the YouTube hosts. -/
def videoHeaders (videoUrl : String) (range : Option String) : List (String × String) :=
  let headers :=
    [("User-Agent", "Mozilla/5.0 (Windows NT 10.0; Win64; x64) AppleWebKit/537.36 (KHTML, like Gecko) Chrome/120.0.0.0 Safari/537.36"),
     ("Referer", selectReferer videoUrl),
     ("Accept", "*/*"),
     ("Accept-Language", "en-US,en;q=0.9"),
     ("Accept-Encoding", "identity"),
     ("Connection", "keep-alive"),
     ("Sec-Fetch-Dest", "video"),
     ("Sec-Fetch-Mode", "no-cors"),
     ("Sec-Fetch-Site", "cross-site")]
  if includes videoUrl "googlevideo.com" || includes videoUrl "youtube" then
    headers ++ [("Range", (jsOr range (some "bytes=0-")).getD "")]
  else
    headers

/-- The outbound request of `/api/video-download`. -/
def videoRequest (videoUrl : String) (range : Option String) : OutRequest :=
  { url := videoUrl, method := "GET", headers := videoHeaders videoUrl range, body := .empty }

/-- The response of `/api/video-download` to a successful upstream response:
the copied headers, the status and the buffered body. -/
def videoSuccess (r : FetchResponse) : Response :=
  let contentType := jsOr (r.header "content-type") (some "video/mp4")
  let contentLength := r.header "content-length"
  let contentRange := r.header "content-range"
  let headers :=
    [("Content-Type", contentType.getD ""),
     ("Access-Control-Allow-Origin", "*"),
     ("Access-Control-Allow-Methods", "GET"),
     ("Access-Control-Expose-Headers", "Content-Length, Content-Type")]
  let headers :=
    if truthy contentLength then headers ++ [("Content-Length", contentLength.getD "")]
    else headers
  if truthy contentRange then
    { status := 206
      headers := headers ++ [("Content-Range", contentRange.getD "")]
      body := .binary r.buffer }
  else
    { status := 200, headers := headers, body := .binary r.buffer }

/-- The handler of `GET /api/video-download`. -/
def videoDownloadHandler (fetch : Fetch) (req : Request) : Outcome :=
  let videoUrl := req.query.lookup "url"
  if !truthy videoUrl then
    { calls := []
      response := jsonResponse 400
        (.obj [field "error" (.string "Missing required query parameter: url")]) }
  else
    let out := videoRequest (videoUrl.getD "") (req.headers.lookup "range")
    match fetch out with
    | .failure message => { calls := [out], response := internalError message }
    | .response r =>
      if !r.ok then
        { calls := [out]
          response := jsonResponse r.status
            (.obj [field "error" (.string ("Video download failed: " ++ toString r.status)),
                   field "details" (.str (substring0 (utf16 r.text) 500))]) }
      else
        { calls := [out], response := videoSuccess r }

/-! ## POST /api/vocal-remover -/

/-- The predicate of `req.files.find` in `/api/vocal-remover`. -/
def isVocalField (f : UploadedFile) : Bool :=
  f.fieldname == "file" || f.fieldname == "audio" ||
  f.fieldname == "audio_file" || f.fieldname == "upload"

/-- The file lookup of `/api/vocal-remover`:
`req.files && req.files.length > 0 && req.files.find(...)`, with `none` for
every falsy outcome. -/
def vocalFile (req : Request) : Option UploadedFile :=
  match req.files with
  | none => none
  | some files => if files.length > 0 then files.find? isVocalField else none

/-- One `formData.append(name, file.buffer, { filename, contentType })`. -/
def vocalPart (name : String) (file : UploadedFile) : FormPart :=
  { name := name
    data := file.buffer
    filename := orDefault file.originalname "audio.wav"
    contentType := orDefault file.mimetype "audio/wav" }

/-- The outbound request of `/api/vocal-remover`. -/
def vocalRequest (cfg : Config) (file : UploadedFile) : OutRequest :=
  { url := VOCAL_REMOVER_API_URL
    method := "POST"
    headers := [("x-rapidapi-key", cfg.vocalRemoverApiKey),
                ("x-rapidapi-host", VOCAL_REMOVER_API_HOST)]
    body := .form [vocalPart "file" file, vocalPart "audio" file, vocalPart "audio_file" file] }

/-- The response of `/api/vocal-remover` to a successful upstream response.
In the first branch a failing `response.json()` reaches the outer `catch`; in
the second the failing `JSON.parse(text)` is caught by the inner one. -/
def vocalSuccess (r : FetchResponse) : Response :=
  let contentType := r.header "content-type"
  if truthy contentType && includes (contentType.getD "") "application/json" then
    match r.json with
    | .error message => internalError message
    | .ok data => jsonResponse 200 data
  else
    match r.json with
    | .ok jsonData => jsonResponse 200 jsonData
    | .error _ => { status := 200, headers := [("Content-Type", "text/plain")], body := .text r.text }

/-- The handler of `POST /api/vocal-remover`. -/
def vocalRemoverHandler (cfg : Config) (fetch : Fetch) (req : Request) : Outcome :=
  match vocalFile req with
  | none =>
    { calls := []
      response := jsonResponse 400 (.obj [field "error"
        (.string "Missing audio file. Expected multipart/form-data with \"file\" or \"audio\" field.")]) }
  | some file =>
    let out := vocalRequest cfg file
    match fetch out with
    | .failure message => { calls := [out], response := internalError message }
    | .response r =>
      if !r.ok then
        { calls := [out]
          response := jsonResponse r.status
            (.obj [field "error" (.string ("SplitBeat API error: " ++ r.text))]) }
      else
        { calls := [out], response := vocalSuccess r }

/-! ## POST /api/transcribe -/

/-- The value of `language`: `queryParams.language || 'en'`. -/
def transcribeLanguage (req : Request) : String :=
  (jsOr (req.query.lookup "language") (some "en")).getD ""

/-- The file lookup of `/api/transcribe`: `req.files && req.files.find(...)`. -/
def transcribeFile (req : Request) : Option UploadedFile :=
  match req.files with
  | none => none
  | some files => files.find? (fun f => f.fieldname == "file" || f.fieldname == "audio")

/-- The chain `req.body.audio || req.body.file || req.body.audio_data || req.body.data`. -/
def bodyAudio (req : Request) : Option String :=
  jsOr (jsOr (jsOr (req.body.lookup "audio") (req.body.lookup "file"))
    (req.body.lookup "audio_data")) (req.body.lookup "data")

/-- The value of `base64Audio` after the two assignments: from the body when
no file was found (`req.body` is an object, hence truthy), from the file's
buffer when there is one. -/
def transcribeAudio (req : Request) : Option String :=
  let file := transcribeFile req
  let base64Audio : Option String := none
  let base64Audio := if file.isNone then bodyAudio req else base64Audio
  match file with
  | some f => if !truthy base64Audio then some (toBase64 f.buffer) else base64Audio
  | none => base64Audio

/-- The template string `apiUrl`. -/
def transcribeUrl (language : String) : String :=
  SPEECH_RECOGNITION_API_URL ++ "?word_timestamps=false&task=transcribe&output=txt&language=" ++
    language ++ "&encode=true"

/-- The pairs appended to `urlParams`. -/
def transcribeParams (base64Audio : Option String) : List (String × String) :=
  if truthy base64Audio then
    [("audio", base64Audio.getD ""), ("file", base64Audio.getD ""),
     ("audio_data", base64Audio.getD ""), ("data", base64Audio.getD "")]
  else
    []

/-- The outbound request of `/api/transcribe`. -/
def transcribeRequest (cfg : Config) (language : String) (base64Audio : Option String) :
    OutRequest :=
  { url := transcribeUrl language
    method := "POST"
    headers := [("x-rapidapi-key", cfg.speechRecognitionApiKey),
                ("x-rapidapi-host", SPEECH_RECOGNITION_API_HOST),
                ("Content-Type", "application/x-www-form-urlencoded")]
    body := .urlencoded (transcribeParams base64Audio) }

/-- The handler of `POST /api/transcribe`. -/
def transcribeHandler (cfg : Config) (fetch : Fetch) (req : Request) : Outcome :=
  let language := transcribeLanguage req
  let file := transcribeFile req
  let base64Audio := transcribeAudio req
  if file.isNone && !truthy base64Audio then
    { calls := []
      response := jsonResponse 400 (.obj [field "error"
        (.string "Missing audio data. Expected multipart/form-data with \"file\" or \"audio\" field, or base64 audio in body.")]) }
  else
    let out := transcribeRequest cfg language base64Audio
    match fetch out with
    | .failure message =>
      { calls := [out]
        response := jsonResponse 500
          (.obj [field "error" (.string "Failed to connect to transcription API"),
                 field "message" (.string message)]) }
    | .response r =>
      if r.ok then
        { calls := [out]
          response := { status := 200, headers := [("Content-Type", "text/plain")], body := .text r.text } }
      else
        { calls := [out]
          response := jsonResponse r.status
            (.obj [field "error" (.string "Transcription API error"),
                   field "message" (.string r.text)]) }

/-! ## Reading a URL's query

The parameters an outbound URL carries are read the way a server reads them:
the query runs from the first `?` to the first `#`, is cut at every `&`, and
each piece is cut at its first `=`. Values are left as written (no
percent-decoding). -/

/-- The characters before the first occurrence of `sep` (all when there is none). -/
def beforeChar (sep : Char) : List Char → List Char
  | [] => []
  | c :: cs => if c = sep then [] else c :: beforeChar sep cs

/-- The characters after the first occurrence of `sep` (none when there is none). -/
def afterChar (sep : Char) : List Char → List Char
  | [] => []
  | c :: cs => if c = sep then cs else afterChar sep cs

/-- The pieces of a character list cut at every `sep`. -/
def splitChars (sep : Char) : List Char → List (List Char)
  | [] => [[]]
  | c :: cs =>
    if c = sep then [] :: splitChars sep cs
    else
      match splitChars sep cs with
      | [] => [[c]]
      | piece :: pieces => (c :: piece) :: pieces

/-- The query of a URL: what stands between the first `?` and the first `#`. -/
def urlQuery (url : String) : List Char :=
  afterChar '?' (beforeChar '#' url.data)

/-- Whether a character is an unreserved URL character: an ASCII letter or
digit, `-`, `_`, `.` or `~`. Such characters are sent as they are and decode to
themselves. -/
def isUnreserved (c : Char) : Bool :=
  c.isAlphanum || c == '-' || c == '_' || c == '.' || c == '~'

/-- The parameters of a URL's query, in order, as name and raw value. -/
def queryParameters (url : String) : List (String × String) :=
  ((splitChars '&' (urlQuery url)).filter (fun piece => !piece.isEmpty)).map
    (fun piece => (String.mk (beforeChar '=' piece), String.mk (afterChar '=' piece)))

/-! ## Vocabulary of the properties -/

/-- The string `s` contains `needle` as a substring. -/
def Contains (s needle : String) : Prop :=
  needle.data <:+: s.data

/-- A field is absent or empty. -/
def Missing (v : Option String) : Prop :=
  v = none ∨ v = some ""

instance (s needle : String) : Decidable (Contains s needle) :=
  inferInstanceAs (Decidable (needle.data <:+: s.data))

instance (v : Option String) : Decidable (Missing v) :=
  inferInstanceAs (Decidable (v = none ∨ v = some ""))

/-- The first value of a list that is a non-empty string. -/
def firstNonEmpty : List (Option String) → Option String
  | [] => none
  | v :: vs => if truthy v then v else firstNonEmpty vs

/-- A client-input error: no outbound request, status 400 and a JSON object
whose only member is an `error` string. -/
def IsBadRequest (o : Outcome) : Prop :=
  o.calls = [] ∧ o.response.status = 400 ∧
    ∃ message, o.response.body = .json (.obj [field "error" (.str message)])

/-- The value of the header `name` in each outbound request of an outcome. -/
def sentHeader (o : Outcome) (name : String) : List (Option String) :=
  o.calls.map (fun out => out.headers.lookup name)

/-- The outbound bodies of an outcome, one per upstream call. -/
def sentBody (o : Outcome) : List OutBody :=
  o.calls.map (fun out => out.body)

/-- The URLs of the outbound requests of an outcome. -/
def sentUrl (o : Outcome) : List String :=
  o.calls.map (fun out => out.url)

/-! ## Concrete requests and upstreams -/

def exampleConfig : Config :=
  { rapidApiKey := "key-1", vocalRemoverApiKey := "key-2", speechRecognitionApiKey := "key-3" }

/-- An upstream that answers every request with the same response. -/
def always (r : FetchResponse) : Fetch :=
  fun _ => .response r

/-- The download request of the end-to-end scenario. -/
def scenarioRequest : Request :=
  { body := [("url", "https://example.com/v")] }

/-- The JSON value `{"links":["a.mp4"]}`. -/
def scenarioJson : Json :=
  .obj [field "links" (.arr [.string "a.mp4"])]

/-- The upstream response of the end-to-end scenario. -/
def scenarioUpstream : FetchResponse :=
  { status := 200
    headers := [("content-type", "application/json")]
    text := "\x7b\"links\":[\"a.mp4\"]\x7d"
    json := .ok scenarioJson }

/-- A `204 No Content` upstream response: a success status and an empty body,
on which `response.json()` throws. -/
def noContentUpstream : FetchResponse :=
  { status := 204, text := "", json := .error "Unexpected end of JSON input" }

/-- A `200` upstream response whose JSON body holds an integer beyond the
precision of a JavaScript number: `JSON.parse` reads `12345678901234567890` as
the number that prints as `12345678901234567000`. -/
def bigNumberUpstream : FetchResponse :=
  { status := 200
    headers := [("content-type", "application/json")]
    text := "\x7b\"id\":12345678901234567890\x7d"
    json := .ok (.obj [field "id" (.num "12345678901234567000")]) }

/-- A `304 Not Modified` upstream response. -/
def notModifiedUpstream : FetchResponse :=
  { status := 304, text := "" }

/-- A request that carries nothing at all. -/
def emptyRequest : Request := {}

/-- A `404` upstream response with a plain-text body. -/
def notFoundUpstream : FetchResponse :=
  { status := 404, headers := [("content-type", "text/plain")], text := "Not Found" }

/-- A file uploaded under the field name `file`. -/
def sampleFile : UploadedFile :=
  { fieldname := "file", originalname := "song.mp3", mimetype := "audio/mpeg", buffer := [77, 97, 110] }

/-- A multipart request that uploads `sampleFile`. -/
def uploadRequest : Request :=
  { files := some [sampleFile] }

/-- A video request for a plain URL. -/
def plainVideoRequest : Request :=
  { query := [("url", "https://example.com/v.mp4")] }

/-- A request with a file under another field name and an empty `audio` in
its body. -/
def strayUploadRequest : Request :=
  { files := some [{ fieldname := "document", originalname := "a.txt", mimetype := "text/plain", buffer := [1] }]
    body := [("note", "hello"), ("audio", "")] }

/-- A transcription request with base64 audio in its body and a language. -/
def base64Request : Request :=
  { query := [("language", "fr")], body := [("audio", "TWFu")] }

/-- A video request whose URL names Instagram only. -/
def instagramVideoRequest : Request :=
  { query := [("url", "https://scontent.cdninstagram.com/v/clip.mp4")] }

/-- A TikTok video URL whose path mentions Instagram. -/
def tiktokInstagramRequest : Request :=
  { query := [("url", "https://www.tiktok.com/@instagram/video/1")] }

/-- A musical.ly video URL. -/
def musicallyRequest : Request :=
  { query := [("url", "https://musical.ly/v/1")] }

/-- A video request for a googlevideo URL with a client `Range` header. -/
def youtubeRangeRequest : Request :=
  { query := [("url", "https://rr1.googlevideo.com/videoplayback?id=1")]
    headers := [("range", "bytes=100-199")] }

/-- A video request for a TikTok URL with a client `Range` header. -/
def tiktokRangeRequest : Request :=
  { query := [("url", "https://www.tiktok.com/@user/video/1")]
    headers := [("range", "bytes=100-199")] }

/-- A video request for a plain URL with a client `Range` header. -/
def plainRangeRequest : Request :=
  { query := [("url", "https://example.com/v.mp4")]
    headers := [("range", "bytes=100-199")] }

/-- A `416 Range Not Satisfiable` upstream response; it carries `Content-Range`. -/
def rangeNotSatisfiable : FetchResponse :=
  { status := 416
    headers := [("content-type", "text/html"), ("content-range", "bytes */1000")]
    text := "Requested Range Not Satisfiable" }

/-- A `200` upstream response whose `Content-Range` header has an empty value. -/
def emptyContentRange : FetchResponse :=
  { status := 200
    headers := [("content-type", "video/mp4"), ("content-range", "")]
    buffer := [0, 1, 2] }

/-- A `206` upstream response to a range request. -/
def partialContent : FetchResponse :=
  { status := 206
    headers := [("content-type", "video/mp4"), ("content-length", "100"),
                ("content-range", "bytes 100-199/1000")]
    buffer := [0, 1, 2] }

/-- A `200` upstream response that announces JSON and has an empty body, on
which `response.json()` throws. -/
def brokenJsonUpstream : FetchResponse :=
  { status := 200
    headers := [("content-type", "application/json")]
    text := ""
    json := .error "Unexpected end of JSON input" }

/-- A `200` upstream response with a plain-text body that is not JSON. -/
def plainTextUpstream : FetchResponse :=
  { status := 200
    headers := [("content-type", "text/html")]
    text := "queued"
    json := .error "Unexpected token q in JSON at position 0" }

/-- A multipart request that uploads a file of zero bytes under `file`. -/
def emptyUploadRequest : Request :=
  { files := some [{ fieldname := "file", originalname := "empty.wav", mimetype := "audio/wav", buffer := [] }] }

/-- A transcription request whose `language` smuggles a second parameter. -/
def injectedLanguageRequest : Request :=
  { query := [("language", "en&task=translate")], body := [("audio", "TWFu")] }

/-! ## Basic facts -/

theorem truthy_some {s : String} (h : s ≠ "") : truthy (some s) = true := by
  simp [truthy, h]

theorem not_truthy_of_missing {v : Option String} (h : Missing v) : truthy v = false := by
  rcases h with h | h <;> simp [h, truthy]

theorem downloadHandler_calls (cfg : Config) (fetch : Fetch) (req : Request) :
    (downloadHandler cfg fetch req).calls =
      if truthy (req.body.lookup "url") then
        [downloadRequest cfg ((req.body.lookup "url").getD "")]
      else [] := by
  unfold downloadHandler
  by_cases ht : truthy (req.body.lookup "url") = true
  · simp only [ht]
    cases hf : fetch (downloadRequest cfg ((req.body.lookup "url").getD "")) with
    | failure m => simp
    | response r =>
      by_cases hok : r.ok = true
      · cases hj : r.json <;> simp [hok, hj]
      · simp [hok]
  · simp [ht]

theorem videoDownloadHandler_calls (fetch : Fetch) (req : Request) :
    (videoDownloadHandler fetch req).calls =
      if truthy (req.query.lookup "url") then
        [videoRequest ((req.query.lookup "url").getD "") (req.headers.lookup "range")]
      else [] := by
  unfold videoDownloadHandler
  by_cases ht : truthy (req.query.lookup "url") = true
  · simp only [ht]
    cases hf : fetch (videoRequest ((req.query.lookup "url").getD "") (req.headers.lookup "range")) with
    | failure m => simp
    | response r =>
      by_cases hok : r.ok = true <;> simp [hok]
  · simp [ht]

theorem vocalRemoverHandler_calls (cfg : Config) (fetch : Fetch) (req : Request) :
    (vocalRemoverHandler cfg fetch req).calls =
      match vocalFile req with
      | some file => [vocalRequest cfg file]
      | none => [] := by
  unfold vocalRemoverHandler
  cases hfile : vocalFile req with
  | none => simp
  | some file =>
    simp only
    cases hf : fetch (vocalRequest cfg file) with
    | failure m => simp
    | response r =>
      by_cases hok : r.ok = true <;> simp [hok]

theorem transcribeHandler_calls (cfg : Config) (fetch : Fetch) (req : Request) :
    (transcribeHandler cfg fetch req).calls =
      if (transcribeFile req).isNone && !truthy (transcribeAudio req) then []
      else [transcribeRequest cfg (transcribeLanguage req) (transcribeAudio req)] := by
  unfold transcribeHandler
  by_cases hv : ((transcribeFile req).isNone && !truthy (transcribeAudio req)) = true
  · simp [hv]
  · simp only [hv]
    cases hf : fetch (transcribeRequest cfg (transcribeLanguage req) (transcribeAudio req)) with
    | failure m => simp
    | response r =>
      by_cases hok : r.ok = true <;> simp [hok]

theorem jsonResponse_status (status : Nat) (value : Json) :
    (jsonResponse status value).status = status := by
  unfold jsonResponse
  split <;> rfl

theorem jsonResponse_body {status : Nat} {value : Json} (h204 : status ≠ 204)
    (h304 : status ≠ 304) : (jsonResponse status value).body = .json value := by
  simp [jsonResponse, h204, h304]

theorem ok_eq_false {r : FetchResponse} (h : ¬ (200 ≤ r.status ∧ r.status < 300)) :
    r.ok = false := by
  simp only [FetchResponse.ok, Bool.and_eq_false_iff, decide_eq_false_iff_not]
  by_cases h1 : 200 ≤ r.status
  · exact Or.inr (fun h2 => h ⟨h1, h2⟩)
  · exact Or.inl h1

theorem ok_eq_true {r : FetchResponse} (h : 200 ≤ r.status ∧ r.status < 300) :
    r.ok = true := by
  simp [FetchResponse.ok, h.1, h.2]

theorem startsWithChars_iff (l p : List Char) : startsWithChars l p = true ↔ p <+: l := by
  induction l generalizing p with
  | nil =>
    cases p with
    | nil => simp [startsWithChars]
    | cons c cs => simp [startsWithChars]
  | cons a l ih =>
    cases p with
    | nil => simp [startsWithChars]
    | cons c cs =>
      simp only [startsWithChars, Bool.and_eq_true, beq_iff_eq, ih, List.cons_prefix_cons]
      constructor
      · rintro ⟨h1, h2⟩
        exact ⟨h1.symm, h2⟩
      · rintro ⟨h1, h2⟩
        exact ⟨h1.symm, h2⟩

theorem includesChars_iff (l needle : List Char) : includesChars l needle = true ↔ needle <:+: l := by
  induction l with
  | nil =>
    cases needle <;> simp [includesChars]
  | cons a l ih =>
    simp only [includesChars, Bool.or_eq_true, startsWithChars_iff, ih, List.infix_cons_iff]

/-- The model of `includes` decides substring containment. -/
theorem includes_iff (s needle : String) : includes s needle = true ↔ Contains s needle :=
  includesChars_iff s.data needle.data

theorem includes_eq_false_iff (s needle : String) :
    includes s needle = false ↔ ¬ Contains s needle := by
  rw [← includes_iff]
  simp

theorem videoHeaders_referer (url : String) (range : Option String) :
    (videoHeaders url range).lookup "Referer" = some (selectReferer url) := by
  unfold videoHeaders
  split <;> rfl

theorem videoHeaders_range (url : String) (range : Option String) :
    (videoHeaders url range).lookup "Range" =
      if includes url "googlevideo.com" || includes url "youtube" then
        some ((jsOr range (some "bytes=0-")).getD "")
      else none := by
  unfold videoHeaders
  split <;> rfl

theorem video_sentHeader (fetch : Fetch) (req : Request) (url : String)
    (hurl : req.query.lookup "url" = some url) (hne : url ≠ "") (name : String) :
    sentHeader (videoDownloadHandler fetch req) name =
      [(videoHeaders url (req.headers.lookup "range")).lookup name] := by
  simp [sentHeader, videoDownloadHandler_calls, hurl, truthy_some hne, videoRequest]

theorem selectReferer_tiktok {url : String}
    (h : Contains url "tiktok" ∨ Contains url "musical.ly") :
    selectReferer url = "https://www.tiktok.com/" := by
  simp only [← includes_iff] at h
  simp [selectReferer, h]

theorem selectReferer_instagram {url : String} (h1 : ¬ Contains url "tiktok")
    (h2 : ¬ Contains url "musical.ly") (h3 : Contains url "instagram") :
    selectReferer url = "https://www.instagram.com/" := by
  simp only [← includes_iff, Bool.not_eq_true] at h1 h2 h3
  simp [selectReferer, h1, h2, h3]

theorem selectReferer_youtube {url : String} (h1 : ¬ Contains url "tiktok")
    (h2 : ¬ Contains url "musical.ly") (h3 : ¬ Contains url "instagram") :
    selectReferer url = "https://www.youtube.com/" := by
  simp only [← includes_iff, Bool.not_eq_true] at h1 h2 h3
  simp [selectReferer, h1, h2, h3]

theorem videoSuccess_contentRange (r : FetchResponse) (value : String)
    (hcr : r.header "content-range" = some value) (hv : value ≠ "") :
    (videoSuccess r).status = 206 ∧
    (videoSuccess r).headers.lookup "Content-Range" = some value := by
  unfold videoSuccess
  simp only [hcr, truthy_some hv, if_true, Option.getD_some]
  refine ⟨trivial, ?_⟩
  by_cases hl : truthy (r.header "content-length") = true
  · simp only [hl, if_true]
    rfl
  · simp only [hl]
    rfl

theorem vocalRemoverHandler_success (cfg : Config) (fetch : Fetch) (req : Request)
    (out : OutRequest) (r : FetchResponse)
    (hcalls : (vocalRemoverHandler cfg fetch req).calls = [out])
    (hfetch : fetch out = .response r) (hok : 200 ≤ r.status ∧ r.status < 300) :
    (vocalRemoverHandler cfg fetch req).response = vocalSuccess r := by
  rw [vocalRemoverHandler_calls] at hcalls
  cases hfile : vocalFile req with
  | none => simp [hfile] at hcalls
  | some file =>
    simp only [hfile, List.cons.injEq, and_true] at hcalls
    subst hcalls
    simp [vocalRemoverHandler, hfile, hfetch, ok_eq_true hok]

theorem toBase64_ne_empty {buffer : Buffer} (h : buffer ≠ []) : toBase64 buffer ≠ "" := by
  intro hb
  have hd : base64Chars buffer = [] := congrArg String.data hb
  match buffer, h, hd with
  | [_], _, hd => simp [base64Chars] at hd
  | [_, _], _, hd => simp [base64Chars] at hd
  | _ :: _ :: _ :: _, _, hd => simp [base64Chars] at hd

theorem firstNonEmpty_four {a b c d : Option String} {x : String}
    (h : firstNonEmpty [a, b, c, d] = some x) :
    jsOr (jsOr (jsOr a b) c) d = some x ∧ x ≠ "" := by
  simp only [firstNonEmpty] at h
  by_cases ha : truthy a = true
  · simp only [ha, if_true] at h
    subst h
    refine ⟨by simp [jsOr, ha], ?_⟩
    simpa [truthy] using ha
  · by_cases hb : truthy b = true
    · simp only [ha, hb, if_true] at h
      subst h
      refine ⟨by simp [jsOr, ha, hb], ?_⟩
      simpa [truthy] using hb
    · by_cases hc : truthy c = true
      · simp only [ha, hb, hc, if_true] at h
        subst h
        refine ⟨by simp [jsOr, ha, hb, hc], ?_⟩
        simpa [truthy] using hc
      · by_cases hd : truthy d = true
        · simp only [ha, hb, hc, hd, if_true] at h
          subst h
          refine ⟨by simp [jsOr, ha, hb, hc], ?_⟩
          simpa [truthy] using hd
        · simp [ha, hb, hc, hd] at h

theorem truthy_firstNonEmpty_none : ∀ (l : List (Option String)),
    firstNonEmpty l = none → ∀ v ∈ l, truthy v = false
  | [], _, v, hv => by simp at hv
  | a :: l, h, v, hv => by
    simp only [firstNonEmpty] at h
    by_cases ha : truthy a = true
    · rw [if_pos ha] at h
      rw [h] at ha
      simp [truthy] at ha
    · rw [if_neg ha] at h
      rcases List.mem_cons.mp hv with rfl | hv2
      · simpa using ha
      · exact truthy_firstNonEmpty_none l h v hv2

theorem firstNonEmpty_four_none {a b c d : Option String}
    (h : firstNonEmpty [a, b, c, d] = none) :
    truthy (jsOr (jsOr (jsOr a b) c) d) = false := by
  have ha := truthy_firstNonEmpty_none _ h a (by simp)
  have hb := truthy_firstNonEmpty_none _ h b (by simp)
  have hc := truthy_firstNonEmpty_none _ h c (by simp)
  have hd := truthy_firstNonEmpty_none _ h d (by simp)
  simp [jsOr, ha, hb, hc, hd]

theorem beforeChar_of_not_mem (sep : Char) : ∀ (l : List Char), sep ∉ l → beforeChar sep l = l
  | [], _ => rfl
  | c :: cs, h => by
    have hc : c ≠ sep := fun e => h (by simp [e])
    have hcs : sep ∉ cs := fun e => h (by simp [e])
    simp [beforeChar, hc, beforeChar_of_not_mem sep cs hcs]

theorem beforeChar_append (sep : Char) : ∀ (a b : List Char), sep ∉ a →
    beforeChar sep (a ++ sep :: b) = a
  | [], b, _ => by simp [beforeChar]
  | c :: cs, b, h => by
    have hc : c ≠ sep := fun e => h (by simp [e])
    have hcs : sep ∉ cs := fun e => h (by simp [e])
    simp [beforeChar, hc, beforeChar_append sep cs b hcs]

theorem afterChar_append (sep : Char) : ∀ (a b : List Char), sep ∉ a →
    afterChar sep (a ++ sep :: b) = b
  | [], b, _ => by simp [afterChar]
  | c :: cs, b, h => by
    have hc : c ≠ sep := fun e => h (by simp [e])
    have hcs : sep ∉ cs := fun e => h (by simp [e])
    simp [afterChar, hc, afterChar_append sep cs b hcs]

theorem splitChars_of_not_mem (sep : Char) : ∀ (l : List Char), sep ∉ l → splitChars sep l = [l]
  | [], _ => rfl
  | c :: cs, h => by
    have hc : c ≠ sep := fun e => h (by simp [e])
    have hcs : sep ∉ cs := fun e => h (by simp [e])
    simp [splitChars, hc, splitChars_of_not_mem sep cs hcs]

theorem splitChars_append (sep : Char) : ∀ (a b : List Char), sep ∉ a →
    splitChars sep (a ++ sep :: b) = a :: splitChars sep b
  | [], b, _ => by simp [splitChars]
  | c :: cs, b, h => by
    have hc : c ≠ sep := fun e => h (by simp [e])
    have hcs : sep ∉ cs := fun e => h (by simp [e])
    simp [splitChars, hc, splitChars_append sep cs b hcs]

theorem transcribeUrl_data (language : String) :
    (transcribeUrl language).data =
      "https://api-real-time-speech-processing.p.rapidapi.com/asr".data ++ '?' ::
        ("word_timestamps=false".data ++ '&' :: ("task=transcribe".data ++ '&' ::
          ("output=txt".data ++ '&' :: (("language".data ++ '=' :: language.data) ++ '&' ::
            "encode=true".data)))) := by
  simp only [transcribeUrl, SPEECH_RECOGNITION_API_URL, String.data_append]
  simp [List.append_assoc]

theorem queryParameters_transcribeUrl (language : String)
    (hamp : '&' ∉ language.data) (hhash : '#' ∉ language.data) :
    queryParameters (transcribeUrl language) =
      [("word_timestamps", "false"), ("task", "transcribe"), ("output", "txt"),
       ("language", language), ("encode", "true")] := by
  have hq : urlQuery (transcribeUrl language) =
      "word_timestamps=false".data ++ '&' :: ("task=transcribe".data ++ '&' ::
          ("output=txt".data ++ '&' :: (("language".data ++ '=' :: language.data) ++ '&' ::
            "encode=true".data))) := by
    unfold urlQuery
    rw [beforeChar_of_not_mem, transcribeUrl_data, afterChar_append]
    · decide
    · rw [transcribeUrl_data]
      simp [hhash]
  have hlang : '&' ∉ "language".data ++ '=' :: language.data := by
    simp [hamp]
  unfold queryParameters
  rw [hq, splitChars_append '&' _ _ (by decide), splitChars_append '&' _ _ (by decide),
    splitChars_append '&' _ _ (by decide), splitChars_append '&' _ _ hlang,
    splitChars_of_not_mem '&' _ (by decide)]
  have h4 : beforeChar '=' ("language".data ++ '=' :: language.data) = "language".data :=
    beforeChar_append '=' _ _ (by decide)
  have h4b : afterChar '=' ("language".data ++ '=' :: language.data) = language.data :=
    afterChar_append '=' _ _ (by decide)
  simp only [List.filter, List.map]
  have e1 : (String.mk (beforeChar '=' ("language".data ++ '=' :: language.data)),
      String.mk (afterChar '=' ("language".data ++ '=' :: language.data))) = ("language", language) := by
    rw [h4, h4b]
  exact congrArg (fun p => [("word_timestamps", "false"), ("task", "transcribe"), ("output", "txt"),
       p, ("encode", "true")]) e1

theorem transcribeLanguage_eq (req : Request) (language : String)
    (hlang : (Missing (req.query.lookup "language") ∧ language = "en") ∨
      (req.query.lookup "language" = some language ∧ language ≠ "")) :
    transcribeLanguage req = language := by
  rcases hlang with ⟨hm, rfl⟩ | ⟨hl, hne⟩
  · simp [transcribeLanguage, jsOr, not_truthy_of_missing hm]
  · simp [transcribeLanguage, jsOr, hl, truthy_some hne]

theorem transcribeUrl_eq (language : String) :
    transcribeUrl language =
      "https://api-real-time-speech-processing.p.rapidapi.com/asr?word_timestamps=false&task=transcribe&output=txt&language="
        ++ language ++ "&encode=true" := by
  unfold transcribeUrl
  rfl

/-! ## POST /api/download: success -/

/-- C1 (amended): in `POST /api/download`, for every request whose body carries
a non-empty `url` and every upstream response with a 2xx status whose body
parses as JSON, the relay issues the one upstream call and responds with
status 200 and, as its JSON payload, the parsed upstream value serialised
again: the text `JSON.stringify` writes for what `response.json()` returned. -/
theorem download_success_passthrough (cfg : Config) (fetch : Fetch) (req : Request)
    (url : String) (r : FetchResponse) (data : Json)
    (hurl : req.body.lookup "url" = some url) (hne : url ≠ "")
    (hfetch : fetch (downloadRequest cfg url) = .response r)
    (hok : 200 ≤ r.status ∧ r.status < 300) (hjson : r.json = .ok data) :
    (downloadHandler cfg fetch req).calls = [downloadRequest cfg url] ∧
    (downloadHandler cfg fetch req).response.status = 200 ∧
    (downloadHandler cfg fetch req).response.body = .json data ∧
    sentText (downloadHandler cfg fetch req).response = stringify data := by
  have hresp : downloadHandler cfg fetch req =
      { calls := [downloadRequest cfg url], response := jsonResponse 200 data } := by
    simp [downloadHandler, hurl, truthy_some hne, hfetch, ok_eq_true hok, hjson]
  rw [hresp]
  exact ⟨rfl, rfl, rfl, rfl⟩

/-- C1 (witness): the end-to-end scenario, url `https://example.com/v` and an
upstream 200 with `{"links":["a.mp4"]}`, gives 200 with `{"links":["a.mp4"]}`. -/
theorem download_success_passthrough_witness :
    (downloadHandler exampleConfig (always scenarioUpstream) scenarioRequest).calls
      = [downloadRequest exampleConfig "https://example.com/v"] ∧
    (downloadHandler exampleConfig (always scenarioUpstream) scenarioRequest).response.status = 200 ∧
    (downloadHandler exampleConfig (always scenarioUpstream) scenarioRequest).response.body
      = .json (.obj [field "links" (.arr [.string "a.mp4"])]) ∧
    sentText (downloadHandler exampleConfig (always scenarioUpstream) scenarioRequest).response
      = utf16 "\x7b\"links\":[\"a.mp4\"]\x7d" :=
  download_success_passthrough exampleConfig (always scenarioUpstream) scenarioRequest
    "https://example.com/v" scenarioUpstream scenarioJson rfl (by decide) rfl
    (by decide) rfl

/-- C1 (counterexample): an upstream `204 No Content` is a 2xx response, yet
the relay answers the request for `https://example.com/v` with status 500,
because reading the empty body as JSON throws; and an upstream 200 with the
JSON body `{"id":12345678901234567890}` is relayed with status 200 and the
payload `{"id":12345678901234567000}`, which is not the upstream's body. -/
theorem download_success_not_json_counterexample :
    ((200 ≤ noContentUpstream.status ∧ noContentUpstream.status < 300) ∧
      (downloadHandler exampleConfig (always noContentUpstream) scenarioRequest).response.status
        = 500) ∧
    ((200 ≤ bigNumberUpstream.status ∧ bigNumberUpstream.status < 300) ∧
      (downloadHandler exampleConfig (always bigNumberUpstream) scenarioRequest).response.status
        = 200 ∧
      sentText (downloadHandler exampleConfig (always bigNumberUpstream) scenarioRequest).response
        = utf16 "\x7b\"id\":12345678901234567000\x7d" ∧
      sentText (downloadHandler exampleConfig (always bigNumberUpstream) scenarioRequest).response
        ≠ utf16 bigNumberUpstream.text) := by
  refine ⟨⟨by decide, by decide⟩, by decide, by decide, by decide, by decide⟩

/-! ## GET /api/video-download: partial content -/

/-- C2 (amended): in `GET /api/video-download`, for every request that reaches
the upstream call `out` (its `url` is non-empty), if the upstream response has
a 2xx status and carries a non-empty `Content-Range` header, then the relay's
status is 206 and its `Content-Range` header equals the upstream value
verbatim. -/
theorem content_range_partial (fetch : Fetch) (req : Request) (out : OutRequest)
    (r : FetchResponse) (value : String)
    (hcalls : (videoDownloadHandler fetch req).calls = [out])
    (hfetch : fetch out = .response r)
    (hok : 200 ≤ r.status ∧ r.status < 300)
    (hcr : r.header "content-range" = some value) (hv : value ≠ "") :
    (videoDownloadHandler fetch req).response.status = 206 ∧
    (videoDownloadHandler fetch req).response.headers.lookup "Content-Range" = some value := by
  rw [videoDownloadHandler_calls] at hcalls
  by_cases ht : truthy (req.query.lookup "url") = true
  · simp only [ht, if_true, List.cons.injEq, and_true] at hcalls
    subst hcalls
    have hresp : (videoDownloadHandler fetch req).response = videoSuccess r := by
      simp [videoDownloadHandler, ht, hfetch, ok_eq_true hok]
    rw [hresp]
    exact videoSuccess_contentRange r value hcr hv
  · simp [ht] at hcalls

/-- C2 (witness): an upstream `206` with `Content-Range: bytes 100-199/1000`
for the googlevideo request is relayed with status 206 and the same header. -/
theorem content_range_partial_witness :
    (videoDownloadHandler (always partialContent) youtubeRangeRequest).response.status = 206 ∧
    (videoDownloadHandler (always partialContent) youtubeRangeRequest).response.headers.lookup
      "Content-Range" = some "bytes 100-199/1000" :=
  content_range_partial (always partialContent) youtubeRangeRequest
    (videoRequest "https://rr1.googlevideo.com/videoplayback?id=1" (some "bytes=100-199"))
    partialContent "bytes 100-199/1000" rfl rfl (by decide) rfl (by decide)

/-- C2 (counterexample): an upstream `416` that carries
`Content-Range: bytes */1000` is answered with status 416 and no
`Content-Range` header; an upstream `200` whose `Content-Range` header is empty
is answered with status 200 and no `Content-Range` header. -/
theorem content_range_counterexample :
    (rangeNotSatisfiable.header "content-range" = some "bytes */1000" ∧
      (videoDownloadHandler (always rangeNotSatisfiable) plainVideoRequest).response.status = 416 ∧
      (videoDownloadHandler (always rangeNotSatisfiable) plainVideoRequest).response.headers.lookup
        "Content-Range" = none) ∧
    (emptyContentRange.header "content-range" = some "" ∧
      (videoDownloadHandler (always emptyContentRange) plainVideoRequest).response.status = 200 ∧
      (videoDownloadHandler (always emptyContentRange) plainVideoRequest).response.headers.lookup
        "Content-Range" = none) := by
  refine ⟨⟨?_, ?_, ?_⟩, ?_, ?_, ?_⟩ <;> decide

/-! ## GET /api/video-download: the referer -/

/-- C3: the `Referer` header that `GET /api/video-download` sends upstream is,
for every non-empty `url` string, `https://www.tiktok.com/` when the url
contains `tiktok` or `musical.ly`; otherwise `https://www.instagram.com/` when
it contains `instagram`; otherwise `https://www.youtube.com/`. It is always one
of these three values, and containment is case-sensitive substring
containment. -/
theorem referer_selection (fetch : Fetch) (req : Request) (url : String)
    (hurl : req.query.lookup "url" = some url) (hne : url ≠ "") :
    (Contains url "tiktok" ∨ Contains url "musical.ly" →
      sentHeader (videoDownloadHandler fetch req) "Referer" = [some "https://www.tiktok.com/"]) ∧
    (¬ Contains url "tiktok" → ¬ Contains url "musical.ly" → Contains url "instagram" →
      sentHeader (videoDownloadHandler fetch req) "Referer" = [some "https://www.instagram.com/"]) ∧
    (¬ Contains url "tiktok" → ¬ Contains url "musical.ly" → ¬ Contains url "instagram" →
      sentHeader (videoDownloadHandler fetch req) "Referer" = [some "https://www.youtube.com/"]) ∧
    (sentHeader (videoDownloadHandler fetch req) "Referer" = [some "https://www.tiktok.com/"] ∨
     sentHeader (videoDownloadHandler fetch req) "Referer" = [some "https://www.instagram.com/"] ∨
     sentHeader (videoDownloadHandler fetch req) "Referer" = [some "https://www.youtube.com/"]) := by
  rw [video_sentHeader fetch req url hurl hne, videoHeaders_referer]
  refine ⟨?_, ?_, ?_, ?_⟩
  · intro h
    rw [selectReferer_tiktok h]
  · intro h1 h2 h3
    rw [selectReferer_instagram h1 h2 h3]
  · intro h1 h2 h3
    rw [selectReferer_youtube h1 h2 h3]
  · by_cases h1 : Contains url "tiktok"
    · exact Or.inl (by rw [selectReferer_tiktok (Or.inl h1)])
    · by_cases h2 : Contains url "musical.ly"
      · exact Or.inl (by rw [selectReferer_tiktok (Or.inr h2)])
      · by_cases h3 : Contains url "instagram"
        · exact Or.inr (Or.inl (by rw [selectReferer_instagram h1 h2 h3]))
        · exact Or.inr (Or.inr (by rw [selectReferer_youtube h1 h2 h3]))

/-- C3 (witness): the URL `https://scontent.cdninstagram.com/v/clip.mp4`
contains `instagram` and neither `tiktok` nor `musical.ly`, and is fetched with
the Instagram referer. -/
theorem referer_selection_witness :
    sentHeader (videoDownloadHandler (always scenarioUpstream) instagramVideoRequest) "Referer"
      = [some "https://www.instagram.com/"] :=
  (referer_selection (always scenarioUpstream) instagramVideoRequest
    "https://scontent.cdninstagram.com/v/clip.mp4" rfl (by decide)).2.1
    (fun h => absurd ((includes_iff _ _).mpr h) (by decide))
    (fun h => absurd ((includes_iff _ _).mpr h) (by decide))
    ((includes_iff _ _).mp (by decide))

/-! ## GET /api/video-download: priority of the referer rules -/

/-- C4 (amended): for every non-empty video-stream `url`, the url is fetched
with the TikTok referer exactly when it contains `tiktok` or `musical.ly`, with
the Instagram referer exactly when it contains `instagram` and neither `tiktok`
nor `musical.ly`, and with the YouTube referer exactly when it contains none of
the three; in particular every url that contains `instagram` and neither
`tiktok` nor `musical.ly` is fetched with the Instagram referer. -/
theorem referer_priority (fetch : Fetch) (req : Request) (url : String)
    (hurl : req.query.lookup "url" = some url) (hne : url ≠ "") :
    (sentHeader (videoDownloadHandler fetch req) "Referer" = [some "https://www.tiktok.com/"] ↔
      Contains url "tiktok" ∨ Contains url "musical.ly") ∧
    (sentHeader (videoDownloadHandler fetch req) "Referer" = [some "https://www.instagram.com/"] ↔
      Contains url "instagram" ∧ ¬ Contains url "tiktok" ∧ ¬ Contains url "musical.ly") ∧
    (sentHeader (videoDownloadHandler fetch req) "Referer" = [some "https://www.youtube.com/"] ↔
      ¬ Contains url "tiktok" ∧ ¬ Contains url "musical.ly" ∧ ¬ Contains url "instagram") := by
  rw [video_sentHeader fetch req url hurl hne, videoHeaders_referer]
  by_cases h1 : Contains url "tiktok"
  · rw [selectReferer_tiktok (Or.inl h1)]
    simp [h1]
  · by_cases h2 : Contains url "musical.ly"
    · rw [selectReferer_tiktok (Or.inr h2)]
      simp [h1, h2]
    · by_cases h3 : Contains url "instagram"
      · rw [selectReferer_instagram h1 h2 h3]
        simp [h1, h2, h3]
      · rw [selectReferer_youtube h1 h2 h3]
        simp [h1, h2, h3]

/-- C4 (witness): `https://scontent.cdninstagram.com/v/clip.mp4` is fetched
with the Instagram referer, because it contains `instagram` and neither
`tiktok` nor `musical.ly`. -/
theorem referer_priority_witness :
    sentHeader (videoDownloadHandler (always notFoundUpstream) instagramVideoRequest) "Referer"
      = [some "https://www.instagram.com/"] :=
  (referer_priority (always notFoundUpstream) instagramVideoRequest
    "https://scontent.cdninstagram.com/v/clip.mp4" rfl (by decide)).2.1.mpr
    ⟨(includes_iff _ _).mp (by decide),
     fun h => absurd ((includes_iff _ _).mpr h) (by decide),
     fun h => absurd ((includes_iff _ _).mpr h) (by decide)⟩

/-- C4 (counterexample): `https://www.tiktok.com/@instagram/video/1` contains
`instagram` and is fetched with the TikTok referer, not the Instagram one; and
`https://musical.ly/v/1` contains neither `tiktok` nor `instagram` and is
fetched with the TikTok referer, not the YouTube one. -/
theorem referer_instagram_counterexample :
    (Contains "https://www.tiktok.com/@instagram/video/1" "instagram" ∧
      sentHeader (videoDownloadHandler (always scenarioUpstream) tiktokInstagramRequest) "Referer"
        = [some "https://www.tiktok.com/"] ∧
      sentHeader (videoDownloadHandler (always scenarioUpstream) tiktokInstagramRequest) "Referer"
        ≠ [some "https://www.instagram.com/"]) ∧
    (¬ Contains "https://musical.ly/v/1" "tiktok" ∧
      ¬ Contains "https://musical.ly/v/1" "instagram" ∧
      sentHeader (videoDownloadHandler (always scenarioUpstream) musicallyRequest) "Referer"
        = [some "https://www.tiktok.com/"] ∧
      sentHeader (videoDownloadHandler (always scenarioUpstream) musicallyRequest) "Referer"
        ≠ [some "https://www.youtube.com/"]) := by
  refine ⟨⟨(includes_iff _ _).mp (by decide), by decide, by decide⟩,
    fun h => absurd ((includes_iff _ _).mpr h) (by decide),
    fun h => absurd ((includes_iff _ _).mpr h) (by decide), by decide, by decide⟩

/-! ## Missing input -/

/-- C5: on every route a request whose required input is absent is answered
with status 400 and a JSON body with an `error` string, and no upstream call is
made: `/api/download` when body `url` is missing or empty, `/api/video-download`
when query `url` is missing or empty, `/api/vocal-remover` when no uploaded file
is named `file`, `audio`, `audio_file` or `upload` (also when there is no file
at all), `/api/transcribe` when no uploaded file is named `file` or `audio` and
none of the body keys `audio`, `file`, `audio_data`, `data` holds a non-empty
value. -/
theorem missing_input_bad_request (cfg : Config) (fetch : Fetch) (req : Request) :
    (Missing (req.body.lookup "url") → IsBadRequest (downloadHandler cfg fetch req)) ∧
    (Missing (req.query.lookup "url") → IsBadRequest (videoDownloadHandler fetch req)) ∧
    ((∀ files, req.files = some files →
        ∀ f ∈ files, f.fieldname ∉ ["file", "audio", "audio_file", "upload"]) →
      IsBadRequest (vocalRemoverHandler cfg fetch req)) ∧
    ((∀ files, req.files = some files →
        ∀ f ∈ files, f.fieldname ∉ ["file", "audio"]) →
      (∀ key ∈ ["audio", "file", "audio_data", "data"], Missing (req.body.lookup key)) →
      IsBadRequest (transcribeHandler cfg fetch req)) := by
  refine ⟨?_, ?_, ?_, ?_⟩
  · intro h
    have hout : downloadHandler cfg fetch req =
        { calls := []
          response := jsonResponse 400
            (.obj [field "error" (.string "Missing required field: url")]) } := by
      simp [downloadHandler, not_truthy_of_missing h]
    rw [hout]
    exact ⟨rfl, rfl, _, rfl⟩
  · intro h
    have hout : videoDownloadHandler fetch req =
        { calls := []
          response := jsonResponse 400
            (.obj [field "error" (.string "Missing required query parameter: url")]) } := by
      simp [videoDownloadHandler, not_truthy_of_missing h]
    rw [hout]
    exact ⟨rfl, rfl, _, rfl⟩
  · intro h
    have hfile : vocalFile req = none := by
      unfold vocalFile
      cases hfs : req.files with
      | none => rfl
      | some files =>
        have hnone : files.find? isVocalField = none := by
          rw [List.find?_eq_none]
          intro f hf
          have := h files hfs f hf
          simp only [List.mem_cons, List.mem_singleton, List.not_mem_nil, or_false, not_or] at this
          simp [isVocalField, this]
        simp [hnone]
    have hout : vocalRemoverHandler cfg fetch req =
        { calls := []
          response := jsonResponse 400 (.obj [field "error"
            (.string "Missing audio file. Expected multipart/form-data with \"file\" or \"audio\" field.")]) } := by
      simp [vocalRemoverHandler, hfile]
    rw [hout]
    exact ⟨rfl, rfl, _, rfl⟩
  · intro h hbody
    have hfile : transcribeFile req = none := by
      unfold transcribeFile
      cases hfs : req.files with
      | none => rfl
      | some files =>
        simp only
        rw [List.find?_eq_none]
        intro f hf
        have := h files hfs f hf
        simp only [List.mem_cons, List.mem_singleton, List.not_mem_nil, or_false, not_or] at this
        simp [this]
    have h1 := not_truthy_of_missing (hbody "audio" (by simp))
    have h2 := not_truthy_of_missing (hbody "file" (by simp))
    have h3 := not_truthy_of_missing (hbody "audio_data" (by simp))
    have h4 := not_truthy_of_missing (hbody "data" (by simp))
    have haudio : truthy (transcribeAudio req) = false := by
      simp [transcribeAudio, hfile, bodyAudio, jsOr, h1, h2, h3, h4]
    have hout : transcribeHandler cfg fetch req =
        { calls := []
          response := jsonResponse 400 (.obj [field "error"
            (.string "Missing audio data. Expected multipart/form-data with \"file\" or \"audio\" field, or base64 audio in body.")]) } := by
      simp [transcribeHandler, hfile, haudio]
    rw [hout]
    exact ⟨rfl, rfl, _, rfl⟩

/-- C5 (witness): a request that carries nothing is answered 400 by
`/api/download` and `/api/video-download`; a request whose only file is named
`document` and whose body has an empty `audio` is answered 400 by
`/api/vocal-remover` and `/api/transcribe`. No upstream call is made. -/
theorem missing_input_bad_request_witness :
    IsBadRequest (downloadHandler exampleConfig (always scenarioUpstream) emptyRequest) ∧
    IsBadRequest (videoDownloadHandler (always scenarioUpstream) emptyRequest) ∧
    IsBadRequest (vocalRemoverHandler exampleConfig (always scenarioUpstream) strayUploadRequest) ∧
    IsBadRequest (transcribeHandler exampleConfig (always scenarioUpstream) strayUploadRequest) :=
  ⟨(missing_input_bad_request exampleConfig (always scenarioUpstream) emptyRequest).1 (Or.inl rfl),
   (missing_input_bad_request exampleConfig (always scenarioUpstream) emptyRequest).2.1 (Or.inl rfl),
   (missing_input_bad_request exampleConfig (always scenarioUpstream) strayUploadRequest).2.2.1
     (by simp [strayUploadRequest]),
   (missing_input_bad_request exampleConfig (always scenarioUpstream) strayUploadRequest).2.2.2
     (by simp [strayUploadRequest])
     (by intro key hk
         simp only [List.mem_cons, List.mem_singleton, List.not_mem_nil, or_false] at hk
         rcases hk with rfl | rfl | rfl | rfl
         · exact Or.inr rfl
         · exact Or.inl rfl
         · exact Or.inl rfl
         · exact Or.inl rfl)⟩

/-! ## Upstream errors -/

/-- C6 (amended): on each of the four proxy routes, whenever the upstream call
`out` completes with a non-2xx status, the relay's status is exactly that
status. When the status is not 304 its body is a JSON error object built from
the upstream error text: the full text for download, vocal-remover and
transcribe; for video-download the status number and, in `details`, the first
500 UTF-16 code units of the text. At status 304 the response has no body. -/
theorem upstream_error_mirrored (cfg : Config) (fetch : Fetch) (req : Request)
    (out : OutRequest) (r : FetchResponse)
    (hfetch : fetch out = .response r) (hnok : ¬ (200 ≤ r.status ∧ r.status < 300)) :
    ((downloadHandler cfg fetch req).calls = [out] →
      (downloadHandler cfg fetch req).response.status = r.status ∧
      (r.status ≠ 304 → (downloadHandler cfg fetch req).response.body
        = .json (.obj [field "error" (.string ("RapidAPI error: " ++ r.text))])) ∧
      (r.status = 304 → (downloadHandler cfg fetch req).response.body = .empty)) ∧
    ((videoDownloadHandler fetch req).calls = [out] →
      (videoDownloadHandler fetch req).response.status = r.status ∧
      (r.status ≠ 304 → ∃ details : JSString,
        details = (utf16 r.text).take 500 ∧ details.length ≤ 500 ∧
        (videoDownloadHandler fetch req).response.body
          = .json (.obj [field "error" (.string ("Video download failed: " ++ toString r.status)),
                         field "details" (.str details)])) ∧
      (r.status = 304 → (videoDownloadHandler fetch req).response.body = .empty)) ∧
    ((vocalRemoverHandler cfg fetch req).calls = [out] →
      (vocalRemoverHandler cfg fetch req).response.status = r.status ∧
      (r.status ≠ 304 → (vocalRemoverHandler cfg fetch req).response.body
        = .json (.obj [field "error" (.string ("SplitBeat API error: " ++ r.text))])) ∧
      (r.status = 304 → (vocalRemoverHandler cfg fetch req).response.body = .empty)) ∧
    ((transcribeHandler cfg fetch req).calls = [out] →
      (transcribeHandler cfg fetch req).response.status = r.status ∧
      (r.status ≠ 304 → (transcribeHandler cfg fetch req).response.body
        = .json (.obj [field "error" (.string "Transcription API error"),
                       field "message" (.string r.text)])) ∧
      (r.status = 304 → (transcribeHandler cfg fetch req).response.body = .empty)) := by
  have hok : r.ok = false := ok_eq_false hnok
  have h204 : r.status ≠ 204 := fun h => hnok (by rw [h]; decide)
  refine ⟨?_, ?_, ?_, ?_⟩
  · intro hcalls
    rw [downloadHandler_calls] at hcalls
    by_cases ht : truthy (req.body.lookup "url") = true
    · simp only [ht, if_true, List.cons.injEq, and_true] at hcalls
      subst hcalls
      have hresp : (downloadHandler cfg fetch req).response = jsonResponse r.status
          (.obj [field "error" (.string ("RapidAPI error: " ++ r.text))]) := by
        simp [downloadHandler, ht, hfetch, hok]
      rw [hresp]
      exact ⟨jsonResponse_status _ _, fun h => jsonResponse_body h204 h, fun h => by
        rw [h]; rfl⟩
    · simp [ht] at hcalls
  · intro hcalls
    rw [videoDownloadHandler_calls] at hcalls
    by_cases ht : truthy (req.query.lookup "url") = true
    · simp only [ht, if_true, List.cons.injEq, and_true] at hcalls
      subst hcalls
      have hresp : (videoDownloadHandler fetch req).response = jsonResponse r.status
          (.obj [field "error" (.string ("Video download failed: " ++ toString r.status)),
                 field "details" (.str (substring0 (utf16 r.text) 500))]) := by
        simp [videoDownloadHandler, ht, hfetch, hok]
      rw [hresp]
      refine ⟨jsonResponse_status _ _, fun h => ⟨(utf16 r.text).take 500, rfl,
        List.length_take_le 500 (utf16 r.text), jsonResponse_body h204 h⟩, fun h => by
        rw [h]; rfl⟩
    · simp [ht] at hcalls
  · intro hcalls
    rw [vocalRemoverHandler_calls] at hcalls
    cases hfile : vocalFile req with
    | none => simp [hfile] at hcalls
    | some file =>
      simp only [hfile, List.cons.injEq, and_true] at hcalls
      subst hcalls
      have hresp : (vocalRemoverHandler cfg fetch req).response = jsonResponse r.status
          (.obj [field "error" (.string ("SplitBeat API error: " ++ r.text))]) := by
        simp [vocalRemoverHandler, hfile, hfetch, hok]
      rw [hresp]
      exact ⟨jsonResponse_status _ _, fun h => jsonResponse_body h204 h, fun h => by
        rw [h]; rfl⟩
  · intro hcalls
    rw [transcribeHandler_calls] at hcalls
    by_cases hv : ((transcribeFile req).isNone && !truthy (transcribeAudio req)) = true
    · simp [hv] at hcalls
    · have hv2 : ((transcribeFile req).isNone && !truthy (transcribeAudio req)) = false := by
        simpa using hv
      simp only [hv2, Bool.false_eq_true, if_false, List.cons.injEq, and_true] at hcalls
      subst hcalls
      have hresp : (transcribeHandler cfg fetch req).response = jsonResponse r.status
          (.obj [field "error" (.string "Transcription API error"),
                 field "message" (.string r.text)]) := by
        simp only [transcribeHandler, hv2, hfetch, hok]
        simp
      rw [hresp]
      exact ⟨jsonResponse_status _ _, fun h => jsonResponse_body h204 h, fun h => by
        rw [h]; rfl⟩

/-- C6 (witness): an upstream `404 Not Found` is mirrored by each of the four
routes, with the JSON error object of the route. -/
theorem upstream_error_mirrored_witness :
    (downloadHandler exampleConfig (always notFoundUpstream) scenarioRequest).response.status = 404 ∧
    (videoDownloadHandler (always notFoundUpstream) plainVideoRequest).response.status = 404 ∧
    (vocalRemoverHandler exampleConfig (always notFoundUpstream) uploadRequest).response.body
      = .json (.obj [field "error" (.string "SplitBeat API error: Not Found")]) ∧
    (transcribeHandler exampleConfig (always notFoundUpstream) base64Request).response.body
      = .json (.obj [field "error" (.string "Transcription API error"),
                     field "message" (.string "Not Found")]) :=
  ⟨((upstream_error_mirrored exampleConfig (always notFoundUpstream) scenarioRequest
      (downloadRequest exampleConfig "https://example.com/v") notFoundUpstream rfl (by decide)).1 rfl).1,
   ((upstream_error_mirrored exampleConfig (always notFoundUpstream) plainVideoRequest
      (videoRequest "https://example.com/v.mp4" none) notFoundUpstream rfl (by decide)).2.1 rfl).1,
   ((upstream_error_mirrored exampleConfig (always notFoundUpstream) uploadRequest
      (vocalRequest exampleConfig sampleFile) notFoundUpstream rfl (by decide)).2.2.1 rfl).2.1
      (by decide),
   ((upstream_error_mirrored exampleConfig (always notFoundUpstream) base64Request
      (transcribeRequest exampleConfig "fr" (some "TWFu")) notFoundUpstream rfl (by decide)).2.2.2
      rfl).2.1 (by decide)⟩

/-- C6 (counterexample): an upstream `304 Not Modified` is a non-2xx status;
the relay answers the download request with status 304 and no body at all, so
without a JSON error object. -/
theorem upstream_not_modified_counterexample :
    ¬ (200 ≤ notModifiedUpstream.status ∧ notModifiedUpstream.status < 300) ∧
    (downloadHandler exampleConfig (always notModifiedUpstream) scenarioRequest).calls
      = [downloadRequest exampleConfig "https://example.com/v"] ∧
    (downloadHandler exampleConfig (always notModifiedUpstream) scenarioRequest).response.status
      = 304 ∧
    (downloadHandler exampleConfig (always notModifiedUpstream) scenarioRequest).response.body
      = .empty ∧
    sentText (downloadHandler exampleConfig (always notModifiedUpstream) scenarioRequest).response
      = [] := by
  refine ⟨by decide, rfl, rfl, rfl, rfl⟩

/-! ## POST /api/transcribe: the outbound URL -/

/-- C7 (amended): for every `/api/transcribe` request that reaches the upstream
call, the URL the handler passes to `fetch` is the API URL followed by
`?word_timestamps=false&task=transcribe&output=txt&language=<language>&encode=true`,
where `<language>` is the request's `language` query parameter, put into the
template without URL-encoding, or `en` when that parameter is absent or empty;
for every language value made only of ASCII letters, digits, `-`, `_`, `.` and
`~`, the outbound query has exactly these five parameters, with
`word_timestamps=false`, `task=transcribe`, `output=txt`, `encode=true` and
`language` equal to the supplied value. -/
theorem transcribe_query (cfg : Config) (fetch : Fetch) (req : Request) (out : OutRequest)
    (language : String)
    (hcalls : (transcribeHandler cfg fetch req).calls = [out])
    (hlang : (Missing (req.query.lookup "language") ∧ language = "en") ∨
      (req.query.lookup "language" = some language ∧ language ≠ "")) :
    out.url =
      "https://api-real-time-speech-processing.p.rapidapi.com/asr?word_timestamps=false&task=transcribe&output=txt&language="
        ++ language ++ "&encode=true" ∧
    ((∀ c ∈ language.data, isUnreserved c = true) →
      queryParameters out.url =
        [("word_timestamps", "false"), ("task", "transcribe"), ("output", "txt"),
         ("language", language), ("encode", "true")]) := by
  rw [transcribeHandler_calls] at hcalls
  by_cases hv : ((transcribeFile req).isNone && !truthy (transcribeAudio req)) = true
  · simp [hv] at hcalls
  · have hv2 : ((transcribeFile req).isNone && !truthy (transcribeAudio req)) = false := by
      simpa using hv
    simp only [hv2, Bool.false_eq_true, if_false, List.cons.injEq, and_true] at hcalls
    subst hcalls
    have hurl : (transcribeRequest cfg (transcribeLanguage req) (transcribeAudio req)).url
        = transcribeUrl language := by
      rw [transcribeLanguage_eq req language hlang]
      rfl
    rw [hurl]
    refine ⟨transcribeUrl_eq language, fun hun => ?_⟩
    exact queryParameters_transcribeUrl language
      (fun h => absurd (hun _ h) (by decide)) (fun h => absurd (hun _ h) (by decide))

/-- C7 (witness): `language=fr` gives the outbound URL ending in
`language=fr&encode=true`, with exactly the five parameters. -/
theorem transcribe_query_witness :
    (transcribeRequest exampleConfig "fr" (some "TWFu")).url =
      "https://api-real-time-speech-processing.p.rapidapi.com/asr?word_timestamps=false&task=transcribe&output=txt&language=fr&encode=true" ∧
    queryParameters (transcribeRequest exampleConfig "fr" (some "TWFu")).url =
      [("word_timestamps", "false"), ("task", "transcribe"), ("output", "txt"),
       ("language", "fr"), ("encode", "true")] :=
  ⟨(transcribe_query exampleConfig (always scenarioUpstream) base64Request
      (transcribeRequest exampleConfig "fr" (some "TWFu")) "fr" rfl
      (Or.inr ⟨rfl, by decide⟩)).1,
   (transcribe_query exampleConfig (always scenarioUpstream) base64Request
      (transcribeRequest exampleConfig "fr" (some "TWFu")) "fr" rfl
      (Or.inr ⟨rfl, by decide⟩)).2 (by decide)⟩

/-- C7 (counterexample): with `language=en&task=translate` (the value
`en&task=translate`) the outbound URL carries six parameters, among them
`language=en` and a second `task`, not the five of the claim with `language`
equal to the supplied value. -/
theorem transcribe_language_counterexample :
    injectedLanguageRequest.query.lookup "language" = some "en&task=translate" ∧
    sentUrl (transcribeHandler exampleConfig (always scenarioUpstream) injectedLanguageRequest) =
      ["https://api-real-time-speech-processing.p.rapidapi.com/asr?word_timestamps=false&task=transcribe&output=txt&language=en&task=translate&encode=true"] ∧
    (sentUrl (transcribeHandler exampleConfig (always scenarioUpstream)
        injectedLanguageRequest)).map queryParameters =
      [[("word_timestamps", "false"), ("task", "transcribe"), ("output", "txt"),
        ("language", "en"), ("task", "translate"), ("encode", "true")]] := by
  refine ⟨rfl, ?_, ?_⟩ <;> decide

/-! ## POST /api/transcribe: the outbound body -/

/-- C8 (amended): for every `/api/transcribe` request that passes input
validation with a non-empty audio, the URL-encoded body sent upstream consists
of exactly four key/value pairs, in the order `audio`, `file`, `audio_data`,
`data`, all carrying the same base64 audio string: the base64 encoding of the
uploaded file's bytes when a file named `file` or `audio` was uploaded and has
at least one byte, otherwise (no such file) the first non-empty of the body
keys `audio`, `file`, `audio_data`, `data`. A request passes validation exactly
when there is such a file or such a body value. -/
theorem transcribe_body_pairs (cfg : Config) (fetch : Fetch) (req : Request) :
    (∀ files f, req.files = some files →
      files.find? (fun f => f.fieldname == "file" || f.fieldname == "audio") = some f →
      f.buffer ≠ [] →
      sentBody (transcribeHandler cfg fetch req) =
        [.urlencoded [("audio", toBase64 f.buffer), ("file", toBase64 f.buffer),
                      ("audio_data", toBase64 f.buffer), ("data", toBase64 f.buffer)]]) ∧
    ((∀ files, req.files = some files →
        files.find? (fun f => f.fieldname == "file" || f.fieldname == "audio") = none) →
      ∀ audio, firstNonEmpty [req.body.lookup "audio", req.body.lookup "file",
          req.body.lookup "audio_data", req.body.lookup "data"] = some audio →
      sentBody (transcribeHandler cfg fetch req) =
        [.urlencoded [("audio", audio), ("file", audio), ("audio_data", audio), ("data", audio)]]) ∧
    ((transcribeHandler cfg fetch req).calls ≠ [] ↔
      (∃ files f, req.files = some files ∧
        files.find? (fun f => f.fieldname == "file" || f.fieldname == "audio") = some f) ∨
      ∃ audio, firstNonEmpty [req.body.lookup "audio", req.body.lookup "file",
          req.body.lookup "audio_data", req.body.lookup "data"] = some audio) := by
  refine ⟨?_, ?_, ?_⟩
  · intro files f hfiles hfind hbuf
    have hfile : transcribeFile req = some f := by simp [transcribeFile, hfiles, hfind]
    have haudio : transcribeAudio req = some (toBase64 f.buffer) := by
      simp [transcribeAudio, hfile, truthy]
    have ht : truthy (some (toBase64 f.buffer)) = true := truthy_some (toBase64_ne_empty hbuf)
    simp [sentBody, transcribeHandler_calls, hfile, haudio, transcribeRequest, transcribeParams, ht]
  · intro hnone audio hfirst
    have hfile : transcribeFile req = none := by
      unfold transcribeFile
      cases hfs : req.files with
      | none => rfl
      | some files => exact hnone files hfs
    obtain ⟨hor, hne⟩ := firstNonEmpty_four hfirst
    have haudio : transcribeAudio req = some audio := by
      simp [transcribeAudio, hfile, bodyAudio, hor]
    simp [sentBody, transcribeHandler_calls, hfile, haudio, transcribeRequest, transcribeParams,
      truthy_some hne]
  · rw [transcribeHandler_calls]
    cases hfile : transcribeFile req with
    | some f =>
      simp only [Option.isNone_some, Bool.false_and, Bool.false_eq_true, if_false, ne_eq,
        List.cons_ne_nil, not_false_eq_true, true_iff]
      left
      unfold transcribeFile at hfile
      cases hfs : req.files with
      | none => simp [hfs] at hfile
      | some files =>
        simp only [hfs] at hfile
        exact ⟨files, f, rfl, hfile⟩
    | none =>
      have hnofile : ¬ ∃ files f, req.files = some files ∧
          files.find? (fun f => f.fieldname == "file" || f.fieldname == "audio") = some f := by
        rintro ⟨files, f, hfs, hfind⟩
        simp [transcribeFile, hfs, hfind] at hfile
      have haudio : transcribeAudio req = bodyAudio req := by
        simp [transcribeAudio, hfile]
      simp only [Option.isNone_none, Bool.true_and, haudio, hnofile, false_or]
      cases hfirst : firstNonEmpty [req.body.lookup "audio", req.body.lookup "file",
          req.body.lookup "audio_data", req.body.lookup "data"] with
      | none =>
        have := firstNonEmpty_four_none hfirst
        simp [bodyAudio, this]
      | some audio =>
        obtain ⟨hor, hne⟩ := firstNonEmpty_four hfirst
        simp [bodyAudio, hor, truthy_some hne]

/-- C8 (witness): uploading the three bytes `Man` under `file` sends the four
pairs, each carrying `TWFu`. -/
theorem transcribe_body_pairs_witness :
    sentBody (transcribeHandler exampleConfig (always scenarioUpstream) uploadRequest) =
      [.urlencoded [("audio", "TWFu"), ("file", "TWFu"), ("audio_data", "TWFu"), ("data", "TWFu")]] :=
  (transcribe_body_pairs exampleConfig (always scenarioUpstream) uploadRequest).1
    [sampleFile] sampleFile rfl rfl (by decide)

/-- C8 (counterexample): a multipart upload of a zero-byte file under `file`
passes input validation (the upstream call is made, the status is not 400) and
the URL-encoded body sent upstream has no key/value pair at all. -/
theorem transcribe_empty_file_counterexample :
    sentBody (transcribeHandler exampleConfig (always scenarioUpstream) emptyUploadRequest)
      = [.urlencoded []] ∧
    (transcribeHandler exampleConfig (always scenarioUpstream) emptyUploadRequest).response.status
      ≠ 400 := by
  refine ⟨rfl, by decide⟩

/-! ## POST /api/vocal-remover: success -/

/-- C9 (amended): for every `/api/vocal-remover` request whose upstream call
returns a success status: if the upstream content-type contains
`application/json` and the body parses as JSON, the relay responds with the
upstream's JSON; if the content-type does not contain it (or is absent), the
relay responds with the parsed JSON value when the text parses as JSON, and
with the text verbatim under `Content-Type: text/plain` when it does not. In
every one of these cases the response status is 200. -/
theorem vocal_success_mapping (cfg : Config) (fetch : Fetch) (req : Request)
    (out : OutRequest) (r : FetchResponse)
    (hcalls : (vocalRemoverHandler cfg fetch req).calls = [out])
    (hfetch : fetch out = .response r) (hok : 200 ≤ r.status ∧ r.status < 300) :
    (∀ contentType data, r.header "content-type" = some contentType →
      Contains contentType "application/json" → r.json = .ok data →
      (vocalRemoverHandler cfg fetch req).response.status = 200 ∧
      (vocalRemoverHandler cfg fetch req).response.body = .json data) ∧
    ((∀ contentType, r.header "content-type" = some contentType →
        ¬ Contains contentType "application/json") →
      (∀ data, r.json = .ok data →
        (vocalRemoverHandler cfg fetch req).response.status = 200 ∧
        (vocalRemoverHandler cfg fetch req).response.body = .json data) ∧
      (∀ message, r.json = .error message →
        (vocalRemoverHandler cfg fetch req).response.status = 200 ∧
        (vocalRemoverHandler cfg fetch req).response.headers = [("Content-Type", "text/plain")] ∧
        (vocalRemoverHandler cfg fetch req).response.body = .text r.text)) := by
  rw [vocalRemoverHandler_success cfg fetch req out r hcalls hfetch hok]
  refine ⟨?_, ?_⟩
  · intro contentType data hct hinc hjson
    have hinc2 : includes contentType "application/json" = true := (includes_iff _ _).mpr hinc
    have hne : contentType ≠ "" := by
      rintro rfl
      revert hinc2
      decide
    simp [vocalSuccess, hct, truthy_some hne, hinc2, hjson, jsonResponse]
  · intro hnot
    have hcond : (truthy (r.header "content-type") &&
        includes ((r.header "content-type").getD "") "application/json") = false := by
      cases hct : r.header "content-type" with
      | none => simp [truthy]
      | some contentType =>
        have := (includes_eq_false_iff _ _).mpr (hnot contentType hct)
        simp [this]
    refine ⟨?_, ?_⟩
    · intro data hjson
      simp [vocalSuccess, hcond, hjson, jsonResponse]
    · intro message hjson
      simp [vocalSuccess, hcond, hjson]

/-- C9 (witness): an upstream `200` with content-type `text/html` and the body
`queued` is relayed with status 200, `Content-Type: text/plain` and the text
`queued`. -/
theorem vocal_success_mapping_witness :
    (vocalRemoverHandler exampleConfig (always plainTextUpstream) uploadRequest).response.status = 200 ∧
    (vocalRemoverHandler exampleConfig (always plainTextUpstream) uploadRequest).response.headers
      = [("Content-Type", "text/plain")] ∧
    (vocalRemoverHandler exampleConfig (always plainTextUpstream) uploadRequest).response.body
      = .text "queued" :=
  ((vocal_success_mapping exampleConfig (always plainTextUpstream) uploadRequest
    (vocalRequest exampleConfig sampleFile) plainTextUpstream rfl rfl (by decide)).2
    (by
      intro contentType hct h
      have hct2 : contentType = "text/html" := by
        have : some "text/html" = some contentType := hct
        exact (Option.some.inj this).symm
      subst hct2
      exact absurd ((includes_iff _ _).mpr h) (by decide))).2
    "Unexpected token q in JSON at position 0" rfl

/-- C9 (counterexample): the upstream answers the upload with status 200,
content-type `application/json` and an empty body; the relay responds with
status 500, not 200. -/
theorem vocal_json_counterexample :
    (200 ≤ brokenJsonUpstream.status ∧ brokenJsonUpstream.status < 300) ∧
    (∃ contentType, brokenJsonUpstream.header "content-type" = some contentType ∧
      Contains contentType "application/json") ∧
    (vocalRemoverHandler exampleConfig (always brokenJsonUpstream) uploadRequest).calls
      = [vocalRequest exampleConfig sampleFile] ∧
    (vocalRemoverHandler exampleConfig (always brokenJsonUpstream) uploadRequest).response.status
      = 500 := by
  refine ⟨by decide, ⟨"application/json", rfl, (includes_iff _ _).mp (by decide)⟩, rfl, by decide⟩

/-! ## GET /api/video-download: the Range header -/

/-- C10 (amended): in `GET /api/video-download` the outbound request carries a
`Range` header if and only if the `url` contains `googlevideo.com` or
`youtube`; its value is then the client's `Range` header when the client sent a
non-empty one and `bytes=0-` otherwise. Consequently no `Range` header is sent
for a url that contains neither, whatever the client asked for, also when that
url is fetched with the YouTube referer, as every url is that contains none of
`tiktok`, `musical.ly`, `instagram`. -/
theorem range_propagation (fetch : Fetch) (req : Request) (url : String)
    (hurl : req.query.lookup "url" = some url) (hne : url ≠ "") :
    ((∃ value, sentHeader (videoDownloadHandler fetch req) "Range" = [some value]) ↔
      Contains url "googlevideo.com" ∨ Contains url "youtube") ∧
    (Contains url "googlevideo.com" ∨ Contains url "youtube" →
      (∀ range, req.headers.lookup "range" = some range → range ≠ "" →
        sentHeader (videoDownloadHandler fetch req) "Range" = [some range]) ∧
      (Missing (req.headers.lookup "range") →
        sentHeader (videoDownloadHandler fetch req) "Range" = [some "bytes=0-"])) ∧
    (¬ Contains url "googlevideo.com" → ¬ Contains url "youtube" →
      sentHeader (videoDownloadHandler fetch req) "Range" = [none] ∧
      (¬ Contains url "tiktok" → ¬ Contains url "musical.ly" → ¬ Contains url "instagram" →
        sentHeader (videoDownloadHandler fetch req) "Referer"
          = [some "https://www.youtube.com/"])) := by
  rw [video_sentHeader fetch req url hurl hne "Range", video_sentHeader fetch req url hurl hne "Referer",
    videoHeaders_range, videoHeaders_referer]
  by_cases hm : Contains url "googlevideo.com" ∨ Contains url "youtube"
  · have hb : (includes url "googlevideo.com" || includes url "youtube") = true := by
      simpa [includes_iff] using hm
    simp only [hb, if_true]
    refine ⟨⟨fun _ => hm, fun _ => ⟨_, rfl⟩⟩, fun _ => ⟨?_, ?_⟩, ?_⟩
    · intro range hr hrne
      simp [hr, jsOr, truthy_some hrne]
    · intro hmiss
      simp [jsOr, not_truthy_of_missing hmiss]
    · intro h1 h2
      exact absurd hm (by simp [h1, h2])
  · have hb : (includes url "googlevideo.com" || includes url "youtube") = false := by
      simpa [includes_eq_false_iff, not_or] using hm
    simp only [hb, Bool.false_eq_true, if_false]
    refine ⟨⟨?_, fun h => absurd h hm⟩, fun h => absurd h hm, fun _ _ => ⟨trivial, ?_⟩⟩
    · rintro ⟨value, hv⟩
      simp at hv
    · intro h1 h2 h3
      rw [selectReferer_youtube h1 h2 h3]

/-- C10 (witness): for `https://rr1.googlevideo.com/videoplayback?id=1` the
client's `Range: bytes=100-199` is sent upstream; for
`https://example.com/v.mp4` the same client header is dropped. -/
theorem range_propagation_witness :
    sentHeader (videoDownloadHandler (always scenarioUpstream) youtubeRangeRequest) "Range"
      = [some "bytes=100-199"] ∧
    sentHeader (videoDownloadHandler (always scenarioUpstream) plainRangeRequest) "Range"
      = [none] :=
  ⟨((range_propagation (always scenarioUpstream) youtubeRangeRequest
      "https://rr1.googlevideo.com/videoplayback?id=1" rfl (by decide)).2.1
      (Or.inl ((includes_iff _ _).mp (by decide)))).1 "bytes=100-199" rfl (by decide),
   ((range_propagation (always scenarioUpstream) plainRangeRequest
      "https://example.com/v.mp4" rfl (by decide)).2.2
      (fun h => absurd ((includes_iff _ _).mpr h) (by decide))
      (fun h => absurd ((includes_iff _ _).mpr h) (by decide))).1⟩

/-- C10 (counterexample): `https://www.tiktok.com/@user/video/1` contains
neither `googlevideo.com` nor `youtube`; no `Range` header is sent for it, but
it is fetched with the TikTok referer, not the YouTube one. -/
theorem range_referer_counterexample :
    ¬ Contains "https://www.tiktok.com/@user/video/1" "googlevideo.com" ∧
    ¬ Contains "https://www.tiktok.com/@user/video/1" "youtube" ∧
    sentHeader (videoDownloadHandler (always scenarioUpstream) tiktokRangeRequest) "Range"
      = [none] ∧
    sentHeader (videoDownloadHandler (always scenarioUpstream) tiktokRangeRequest) "Referer"
      = [some "https://www.tiktok.com/"] ∧
    sentHeader (videoDownloadHandler (always scenarioUpstream) tiktokRangeRequest) "Referer"
      ≠ [some "https://www.youtube.com/"] := by
  refine ⟨fun h => absurd ((includes_iff _ _).mpr h) (by decide),
    fun h => absurd ((includes_iff _ _).mpr h) (by decide), by decide, by decide, by decide⟩

end Relay
